import Mathlib

/-!
Verification of the claudeflare-python-mcp specification against its source.

The development shallowly embeds the parts of `src/claudeflare_mcp/__init__.py`
and `src/claudeflare_mcp/cf_handler.py` that the claims speak about:

* `Value` models the plain Python/JSON values the handler methods reshape
  (`None`, `bool`, `int`, `str`, `list`, `dict`).
* `PyError` models the exception classes that the tool boundary distinguishes
  (the `cloudflare` SDK classes named in the `except` ladders, plus Python's
  built-in `ValueError`, `TypeError` and `AttributeError`, and a catch-all).
* `Envelope` models the JSON object built by `_success` / `_error`
  (`__init__.py` lines 57-64); the `json.dumps` serialisation itself is an
  injective encoding and is not modelled.
* `Tool` enumerates the 27 `@mcp.tool()` functions of `__init__.py`, and
  `invoke` reproduces, tool by tool, each function's `except` ladder.
* `handlerMethods` records the methods (and their positional-parameter
  counts) defined on the concrete `CloudflareHandler` class of
  `cf_handler.py`, which has no base classes; `checkCall` gives Python's
  call-time behaviour (missing attribute → `AttributeError`, arity mismatch
  → `TypeError`) and `runTool` composes it with the `except` ladder.

Upstream I/O is modelled by passing the upstream outcome
(`Except PyError Value`) as an explicit argument.
-/

namespace Claudeflare

/-- Plain Python/JSON values, as produced by `response.json()` and by the
reshaping code of the handler methods. Dictionaries are association lists of
string keys (the code only ever uses string keys). -/
inductive Value where
  | null : Value
  | bool : Bool → Value
  | int : Int → Value
  | str : String → Value
  | list : List Value → Value
  | dict : List (String × Value) → Value

/-- First-match lookup in a Python dictionary modelled as an association
list. Response dictionaries have unique keys, so first match is the binding. -/
def dlookup (d : List (String × Value)) (k : String) : Option Value :=
  match d with
  | [] => none
  | (k1, v) :: rest => if k1 = k then some v else dlookup rest k

/-- Python `d.get(k, default)`. -/
def dictGetD (d : List (String × Value)) (k : String) (dflt : Value) : Value :=
  (dlookup d k).getD dflt

/-- Python dictionary assignment `d[k] = v`: an existing key keeps its
position and gets the new value, a fresh key is appended. -/
def dictInsert (d : List (String × Value)) (k : String) (v : Value) :
    List (String × Value) :=
  if d.any (fun kv => kv.1 = k) then
    d.map (fun kv => if kv.1 = k then (k, v) else kv)
  else
    d ++ [(k, v)]

/-- The exception classes distinguished at the tool boundary of
`__init__.py`, each carrying the text that Python's `str(exc)` yields for it.
`other` stands for any further `Exception` subclass. -/
inductive PyError where
  | authenticationError : String → PyError
  | notFoundError : String → PyError
  | permissionDeniedError : String → PyError
  | apiConnectionError : String → PyError
  | valueError : String → PyError
  | typeError : String → PyError
  | attributeError : String → PyError
  | other : String → PyError
deriving Repr, DecidableEq

/-- Python `str(exc)`: the message the exception carries. -/
def PyError.msgOf : PyError → String
  | .authenticationError m => m
  | .notFoundError m => m
  | .permissionDeniedError m => m
  | .apiConnectionError m => m
  | .valueError m => m
  | .typeError m => m
  | .attributeError m => m
  | .other m => m

/-- The three-field response envelope built by `_success` / `_error`
(`__init__.py` lines 57-64). -/
structure Envelope where
  status : String
  data : Value
  message : String

/-- Build the success envelope, as `_success(data)` does
(`__init__.py` line 57): status `"success"`, the data, empty message. -/
def mkSuccess (data : Value) : Envelope :=
  { status := "success", data := data, message := "" }

/-- Build the error envelope, as `_error(message)` does
(`__init__.py` line 62): status `"error"`, null data, the message. -/
def mkError (message : String) : Envelope :=
  { status := "error", data := Value.null, message := message }

/-- The 27 `@mcp.tool()` functions defined in `__init__.py`, in source
order. -/
inductive Tool where
  | list_zones
  | list_dns_records
  | create_dns_record
  | update_dns_record
  | delete_dns_record
  | get_zone_settings
  | purge_cache
  | get_cache_settings
  | get_speed_settings
  | list_firewall_rules
  | get_security_settings
  | get_ssl_settings
  | list_ssl_certificates
  | list_custom_hostnames
  | create_custom_hostname
  | update_custom_hostname
  | delete_custom_hostname
  | get_email_routing
  | list_email_routing_rules
  | get_dnssec
  | get_dns_settings
  | get_zone_analytics
  | list_ai_models
  | run_ai
  | list_workers
  | list_worker_routes
  | get_worker
deriving Repr, DecidableEq

/-- The identifier parameters a tool interpolates into its `NotFoundError`
messages. -/
structure ToolIds where
  zone_id : String
  record_id : String
  custom_hostname_id : String
  script_name : String
deriving Repr, DecidableEq

/-- The exception-to-message mapping of each tool function of `__init__.py`:
for every tool, the body of its `try`/`except` ladder applied to the outcome
of the handler call. Each arm is a direct translation of the corresponding
tool function; `.ok` takes the `_success` path (with the literal result
dictionaries the two delete tools build), each `except` clause becomes a
match arm in source order, and the final `except Exception` arm returns
`_error(str(exc))`. -/
def invoke (t : Tool) (ids : ToolIds) (outcome : Except PyError Value) : Envelope :=
  match t with
  | .list_zones =>
    match outcome with
    | .ok d => mkSuccess d
    | .error (.authenticationError _) => mkError "CF_API_TOKEN 无效，请检查 Token 是否正确"
    | .error (.apiConnectionError m) => mkError ("连接 Cloudflare API 失败: " ++ m)
    | .error e => mkError e.msgOf
  | .list_dns_records =>
    match outcome with
    | .ok d => mkSuccess d
    | .error (.notFoundError _) => mkError ("Zone " ++ ids.zone_id ++ " 不存在")
    | .error (.authenticationError _) => mkError "CF_API_TOKEN 无效"
    | .error e => mkError e.msgOf
  | .create_dns_record =>
    match outcome with
    | .ok d => mkSuccess d
    | .error (.notFoundError _) => mkError ("Zone " ++ ids.zone_id ++ " 不存在")
    | .error (.authenticationError _) => mkError "CF_API_TOKEN 无效"
    | .error e => mkError e.msgOf
  | .update_dns_record =>
    match outcome with
    | .ok d => mkSuccess d
    | .error (.notFoundError _) => mkError ("DNS 记录 " ++ ids.record_id ++ " 不存在")
    | .error (.authenticationError _) => mkError "CF_API_TOKEN 无效"
    | .error e => mkError e.msgOf
  | .delete_dns_record =>
    match outcome with
    | .ok _ =>
      mkSuccess (Value.dict [("deleted", Value.bool true), ("record_id", Value.str ids.record_id)])
    | .error (.notFoundError _) => mkError ("DNS 记录 " ++ ids.record_id ++ " 不存在")
    | .error e => mkError e.msgOf
  | .get_zone_settings =>
    match outcome with
    | .ok d => mkSuccess d
    | .error (.notFoundError _) => mkError ("Zone " ++ ids.zone_id ++ " 不存在")
    | .error e => mkError e.msgOf
  | .purge_cache =>
    match outcome with
    | .ok d => mkSuccess d
    | .error (.notFoundError _) => mkError ("Zone " ++ ids.zone_id ++ " 不存在")
    | .error (.permissionDeniedError _) => mkError "无权限清除缓存，请检查 API Token 的 Cache Purge 权限"
    | .error (.authenticationError _) => mkError "CF_API_TOKEN 无效"
    | .error e => mkError e.msgOf
  | .get_cache_settings =>
    match outcome with
    | .ok d => mkSuccess d
    | .error (.notFoundError _) => mkError ("Zone " ++ ids.zone_id ++ " 不存在")
    | .error e => mkError e.msgOf
  | .get_speed_settings =>
    match outcome with
    | .ok d => mkSuccess d
    | .error (.notFoundError _) => mkError ("Zone " ++ ids.zone_id ++ " 不存在")
    | .error e => mkError e.msgOf
  | .list_firewall_rules =>
    match outcome with
    | .ok d => mkSuccess d
    | .error (.notFoundError _) => mkError ("Zone " ++ ids.zone_id ++ " 不存在")
    | .error (.authenticationError _) => mkError "CF_API_TOKEN 无效"
    | .error e => mkError e.msgOf
  | .get_security_settings =>
    match outcome with
    | .ok d => mkSuccess d
    | .error (.notFoundError _) => mkError ("Zone " ++ ids.zone_id ++ " 不存在")
    | .error e => mkError e.msgOf
  | .get_ssl_settings =>
    match outcome with
    | .ok d => mkSuccess d
    | .error (.notFoundError _) => mkError ("Zone " ++ ids.zone_id ++ " 不存在")
    | .error (.authenticationError _) => mkError "CF_API_TOKEN 无效"
    | .error e => mkError e.msgOf
  | .list_ssl_certificates =>
    match outcome with
    | .ok d => mkSuccess d
    | .error (.notFoundError _) => mkError ("Zone " ++ ids.zone_id ++ " 不存在")
    | .error (.authenticationError _) => mkError "CF_API_TOKEN 无效"
    | .error e => mkError e.msgOf
  | .list_custom_hostnames =>
    match outcome with
    | .ok d => mkSuccess d
    | .error (.notFoundError _) => mkError ("Zone " ++ ids.zone_id ++ " 不存在")
    | .error (.authenticationError _) => mkError "CF_API_TOKEN 无效"
    | .error e => mkError e.msgOf
  | .create_custom_hostname =>
    match outcome with
    | .ok d => mkSuccess d
    | .error (.notFoundError _) => mkError ("Zone " ++ ids.zone_id ++ " 不存在")
    | .error (.authenticationError _) => mkError "CF_API_TOKEN 无效"
    | .error e => mkError e.msgOf
  | .update_custom_hostname =>
    match outcome with
    | .ok d => mkSuccess d
    | .error (.notFoundError _) =>
      mkError ("Custom hostname " ++ ids.custom_hostname_id ++ " 不存在")
    | .error e => mkError e.msgOf
  | .delete_custom_hostname =>
    match outcome with
    | .ok d =>
      mkSuccess (Value.dict
        [("deleted", d), ("custom_hostname_id", Value.str ids.custom_hostname_id)])
    | .error (.notFoundError _) =>
      mkError ("Custom hostname " ++ ids.custom_hostname_id ++ " 不存在")
    | .error e => mkError e.msgOf
  | .get_email_routing =>
    match outcome with
    | .ok d => mkSuccess d
    | .error (.notFoundError _) => mkError ("Zone " ++ ids.zone_id ++ " 不存在")
    | .error (.authenticationError _) => mkError "CF_API_TOKEN 无效"
    | .error e => mkError e.msgOf
  | .list_email_routing_rules =>
    match outcome with
    | .ok d => mkSuccess d
    | .error (.notFoundError _) => mkError ("Zone " ++ ids.zone_id ++ " 不存在")
    | .error (.authenticationError _) => mkError "CF_API_TOKEN 无效"
    | .error e => mkError e.msgOf
  | .get_dnssec =>
    match outcome with
    | .ok d => mkSuccess d
    | .error (.notFoundError _) => mkError ("Zone " ++ ids.zone_id ++ " 不存在")
    | .error (.authenticationError _) => mkError "CF_API_TOKEN 无效"
    | .error e => mkError e.msgOf
  | .get_dns_settings =>
    match outcome with
    | .ok d => mkSuccess d
    | .error (.notFoundError _) => mkError ("Zone " ++ ids.zone_id ++ " 不存在")
    | .error (.authenticationError _) => mkError "CF_API_TOKEN 无效"
    | .error e => mkError e.msgOf
  | .get_zone_analytics =>
    match outcome with
    | .ok d => mkSuccess d
    | .error (.notFoundError _) => mkError ("Zone " ++ ids.zone_id ++ " 不存在")
    | .error e => mkError e.msgOf
  | .list_ai_models =>
    match outcome with
    | .ok d => mkSuccess d
    | .error (.authenticationError _) => mkError "CF_API_TOKEN 无效"
    | .error (.apiConnectionError m) => mkError ("连接 Cloudflare API 失败: " ++ m)
    | .error e => mkError e.msgOf
  | .run_ai =>
    match outcome with
    | .ok d => mkSuccess d
    | .error (.authenticationError _) => mkError "CF_API_TOKEN 无效"
    | .error (.apiConnectionError m) => mkError ("连接 Cloudflare API 失败: " ++ m)
    | .error e => mkError e.msgOf
  | .list_workers =>
    match outcome with
    | .ok d => mkSuccess d
    | .error (.authenticationError _) => mkError "CF_API_TOKEN 无效"
    | .error (.apiConnectionError m) => mkError ("连接 Cloudflare API 失败: " ++ m)
    | .error e => mkError e.msgOf
  | .list_worker_routes =>
    match outcome with
    | .ok d => mkSuccess d
    | .error (.notFoundError _) => mkError ("Zone " ++ ids.zone_id ++ " 不存在")
    | .error (.authenticationError _) => mkError "CF_API_TOKEN 无效"
    | .error e => mkError e.msgOf
  | .get_worker =>
    match outcome with
    | .ok d => mkSuccess d
    | .error (.notFoundError _) => mkError ("Worker 脚本 " ++ ids.script_name ++ " 不存在")
    | .error (.authenticationError _) => mkError "CF_API_TOKEN 无效"
    | .error e => mkError e.msgOf

/-- The methods defined on the concrete `CloudflareHandler` class of
`cf_handler.py` (which has no base classes, so these are the only instance
methods), each with the least and greatest number of positional arguments
accepted beyond `self` (parameters with defaults are optional). -/
def handlerMethods : List (String × Nat × Nat) :=
  [("_get_client", 0, 0),
   ("_get_auth_headers", 0, 0),
   ("list_zones", 0, 0),
   ("list_dns_records", 1, 1),
   ("create_dns_record", 4, 6),
   ("update_dns_record", 3, 5),
   ("delete_dns_record", 2, 2),
   ("get_zone_settings", 1, 1),
   ("_get_zone_settings_filtered", 2, 2),
   ("purge_cache", 1, 4),
   ("get_cache_settings", 1, 1),
   ("get_speed_settings", 1, 1),
   ("list_firewall_rules", 1, 1),
   ("get_security_settings", 1, 1),
   ("get_ssl_settings", 1, 1),
   ("list_ssl_certificates", 1, 1),
   ("list_custom_hostnames", 1, 1),
   ("create_custom_hostname", 2, 2),
   ("get_email_routing", 1, 1),
   ("list_email_routing_rules", 1, 1),
   ("get_dnssec", 1, 1),
   ("get_dns_settings", 1, 1),
   ("get_zone_analytics", 1, 1),
   ("_aggregate_analytics", 1, 1),
   ("list_ai_models", 1, 1),
   ("run_ai", 3, 3),
   ("list_workers", 1, 1),
   ("list_worker_routes", 1, 1),
   ("get_worker", 2, 2)]

/-- Python call semantics for `handler.<method>(<nargs> positional args)`
against the `CloudflareHandler` method table: a missing attribute raises
`AttributeError`, an argument count outside the accepted range raises
`TypeError`, otherwise the call proceeds (`none`). The exception texts
stand in for CPython's wording; no claim depends on them. -/
def checkCall (method : String) (nargs : Nat) : Option PyError :=
  match List.lookup method handlerMethods with
  | none =>
    some (.attributeError ("CloudflareHandler object has no attribute " ++ method))
  | some (lo, hi) =>
    if lo ≤ nargs ∧ nargs ≤ hi then none
    else
      some (.typeError ("CloudflareHandler." ++ method ++ " takes " ++ toString (hi + 1) ++
        " positional arguments but " ++ toString (nargs + 1) ++ " were given"))

/-- The handler method each tool body calls, and the number of positional
arguments it passes (read off the single `await handler.<method>(...)` call
in each tool function of `__init__.py`). -/
def toolCall : Tool → String × Nat
  | .list_zones => ("list_zones", 0)
  | .list_dns_records => ("list_dns_records", 1)
  | .create_dns_record => ("create_dns_record", 6)
  | .update_dns_record => ("update_dns_record", 5)
  | .delete_dns_record => ("delete_dns_record", 2)
  | .get_zone_settings => ("get_zone_settings", 1)
  | .purge_cache => ("purge_cache", 4)
  | .get_cache_settings => ("get_cache_settings", 1)
  | .get_speed_settings => ("get_speed_settings", 1)
  | .list_firewall_rules => ("list_firewall_rules", 1)
  | .get_security_settings => ("get_security_settings", 1)
  | .get_ssl_settings => ("get_ssl_settings", 1)
  | .list_ssl_certificates => ("list_ssl_certificates", 1)
  | .list_custom_hostnames => ("list_custom_hostnames", 1)
  | .create_custom_hostname => ("create_custom_hostname", 3)
  | .update_custom_hostname => ("update_custom_hostname", 3)
  | .delete_custom_hostname => ("delete_custom_hostname", 2)
  | .get_email_routing => ("get_email_routing", 1)
  | .list_email_routing_rules => ("list_email_routing_rules", 1)
  | .get_dnssec => ("get_dnssec", 1)
  | .get_dns_settings => ("get_dns_settings", 1)
  | .get_zone_analytics => ("get_zone_analytics", 1)
  | .list_ai_models => ("list_ai_models", 1)
  | .run_ai => ("run_ai", 3)
  | .list_workers => ("list_workers", 1)
  | .list_worker_routes => ("list_worker_routes", 1)
  | .get_worker => ("get_worker", 2)

/-- A full tool invocation: the body first performs the attribute lookup and
call of its handler method (which can itself raise, before any upstream
request); the resulting outcome passes through the tool's `except` ladder.
`upstream` is the outcome of the handler method when the call is well
formed. -/
def runTool (t : Tool) (ids : ToolIds) (upstream : Except PyError Value) : Envelope :=
  invoke t ids
    (match checkCall (toolCall t).1 (toolCall t).2 with
     | some e => .error e
     | none => upstream)

/-! ### DNS record update (`CloudflareHandler.update_dns_record`, `cf_handler.py` lines 181-213) -/

/-- A DNS record as returned by the upstream `dns.records.get` call. The
`proxied` attribute is optional on the SDK model. -/
structure DnsRecord where
  id : String
  type : String
  name : String
  content : String
  ttl : Int
  proxied : Option Bool
deriving Repr, DecidableEq

/-- The parameters of one upstream `dns.records.edit` call. -/
structure EditCall where
  record_id : String
  zone_id : String
  name : String
  type : String
  content : String
  ttl : Int
  proxied : Option Bool
deriving Repr, DecidableEq

/-- One upstream call issued by the DNS-update flow. -/
inductive DnsUpstreamCall where
  | get : (record_id : String) → (zone_id : String) → DnsUpstreamCall
  | edit : EditCall → DnsUpstreamCall
deriving Repr, DecidableEq

/-- The upstream call sequence of `CloudflareHandler.update_dns_record`
(`cf_handler.py` lines 181-213): first `dns.records.get(record_id,
zone_id)`, whose result is `existing`, then exactly one `dns.records.edit`
carrying `existing.name` / `existing.type`, the caller-supplied `content` /
`ttl`, and `proxied if proxied is not None else existing.proxied`. The
reshaping of the edit response into a result dictionary is modelled by
`update_dns_record_result`. -/
def update_dns_record (zone_id record_id : String) (content : String) (ttl : Int)
    (proxied : Option Bool) (existing : DnsRecord) : List DnsUpstreamCall :=
  let effective_proxied := match proxied with
    | some p => some p
    | none => existing.proxied
  [DnsUpstreamCall.get record_id zone_id,
   DnsUpstreamCall.edit
     { record_id := record_id, zone_id := zone_id, name := existing.name,
       type := existing.type, content := content, ttl := ttl,
       proxied := effective_proxied }]

/-- The result dictionary `update_dns_record` builds from the record `r`
returned by the edit call. -/
def update_dns_record_result (r : DnsRecord) : Value :=
  Value.dict
    [("id", Value.str r.id), ("type", Value.str r.type), ("name", Value.str r.name),
     ("content", Value.str r.content),
     ("proxied", match r.proxied with | some b => Value.bool b | none => Value.null)]

/-! ### Cache purge (`CloudflareHandler.purge_cache`, `cf_handler.py` lines 275-297) -/

/-- One upstream `client.cache.purge` call, distinguished by the keyword
arguments passed. -/
inductive PurgeCall where
  | everything : (zone_id : String) → PurgeCall
  | byFiles : (zone_id : String) → (files : List String) → PurgeCall
  | byTags : (zone_id : String) → (tags : List String) → PurgeCall
deriving Repr, DecidableEq

/-- Character-level splitter behind `pySplitComma`: accumulate the current
segment until a comma ends it. -/
def splitCommaAux : List Char → List Char → List String
  | [], acc => [String.mk acc.reverse]
  | c :: cs, acc =>
    if c = ',' then String.mk acc.reverse :: splitCommaAux cs []
    else splitCommaAux cs (c :: acc)

/-- Python `s.split(",")`: the segments between commas, keeping empty
segments (the empty string splits to one empty segment). -/
def pySplitComma (s : String) : List String :=
  splitCommaAux s.data []

/-- Python `s.strip()`: drop leading and trailing whitespace. -/
def pyStrip (s : String) : String :=
  String.mk (((s.data.dropWhile Char.isWhitespace).reverse.dropWhile
    Char.isWhitespace).reverse)

/-- The list comprehension `[f.strip() for f in s.split(",") if f.strip()]`:
split on commas, strip whitespace, drop entries that strip to nothing. -/
def commaSplitStrip (s : String) : List String :=
  ((pySplitComma s).map pyStrip).filter (fun x => x ≠ "")

/-- The body of `CloudflareHandler.purge_cache` (`cf_handler.py` lines
275-297): on the validation failure no upstream call is attempted and a
`ValueError` is raised; otherwise exactly one purge call is issued (Python
string truthiness is non-emptiness) and the literal result dictionary is
returned. -/
def purge_cache (zone_id files tags : String) (purge_everything : Bool) :
    Except PyError (List PurgeCall × Value) :=
  if purge_everything then
    .ok ([PurgeCall.everything zone_id],
      Value.dict [("purged", Value.bool true), ("zone_id", Value.str zone_id)])
  else if files ≠ "" then
    .ok ([PurgeCall.byFiles zone_id (commaSplitStrip files)],
      Value.dict [("purged", Value.bool true), ("zone_id", Value.str zone_id)])
  else if tags ≠ "" then
    .ok ([PurgeCall.byTags zone_id (commaSplitStrip tags)],
      Value.dict [("purged", Value.bool true), ("zone_id", Value.str zone_id)])
  else
    .error (.valueError "必须指定 purge_everything=True、files 或 tags 之一")

/-! ### Analytics aggregation (`CloudflareHandler._aggregate_analytics`,
`cf_handler.py` lines 534-557) -/

/-- The six running counters of `_aggregate_analytics`. -/
structure AnalyticsTotals where
  req : Int
  cachedReq : Int
  bw : Int
  cachedBw : Int
  threats : Int
  pv : Int
deriving Repr, DecidableEq

/-- The all-zero initial counters (`req = cached_req = ... = 0`). -/
def AnalyticsTotals.zero : AnalyticsTotals := ⟨0, 0, 0, 0, 0, 0⟩

/-- Componentwise addition of counter groups. -/
def AnalyticsTotals.add (a b : AnalyticsTotals) : AnalyticsTotals :=
  ⟨a.req + b.req, a.cachedReq + b.cachedReq, a.bw + b.bw, a.cachedBw + b.cachedBw,
   a.threats + b.threats, a.pv + b.pv⟩

/-- Python `int(v)` on the value kinds that occur in analytics buckets:
integers pass through, booleans coerce, digit strings parse, everything
else raises (`none`). (Floating-point numbers are outside the `Value`
model; the GraphQL counters are integral.) -/
def pyToInt : Value → Option Int
  | .int n => some n
  | .bool b => some (if b then 1 else 0)
  | .str s => s.toInt?
  | _ => none

/-- Python `int(v)` as a fallible computation: a non-coercible value raises. -/
def toIntE (v : Value) : Except PyError Int :=
  match pyToInt v with
  | some n => .ok n
  | none => .error (.typeError "int() argument must be a number")

/-- One iteration of the `for g in groups` loop of `_aggregate_analytics`:
a non-dictionary entry is skipped, `g.get("sum", {})` that is not a
dictionary is skipped, otherwise the six counters (each defaulting to 0)
are coerced with `int(...)` and added to the running totals. -/
def aggStep (acc : AnalyticsTotals) (g : Value) : Except PyError AnalyticsTotals :=
  match g with
  | .dict kvs =>
    match dictGetD kvs "sum" (Value.dict []) with
    | .dict skvs => do
      let r ← toIntE (dictGetD skvs "requests" (Value.int 0))
      let cr ← toIntE (dictGetD skvs "cachedRequests" (Value.int 0))
      let b ← toIntE (dictGetD skvs "bytes" (Value.int 0))
      let cb ← toIntE (dictGetD skvs "cachedBytes" (Value.int 0))
      let th ← toIntE (dictGetD skvs "threats" (Value.int 0))
      let p ← toIntE (dictGetD skvs "pageViews" (Value.int 0))
      .ok ⟨acc.req + r, acc.cachedReq + cr, acc.bw + b, acc.cachedBw + cb,
        acc.threats + th, acc.pv + p⟩
    | _ => .ok acc
  | _ => .ok acc

/-- The four-group summary dictionary `_aggregate_analytics` returns, with
`uncached = total - cached` for requests and bandwidth. -/
def summaryValue (t : AnalyticsTotals) : Value :=
  Value.dict
    [("requests", Value.dict
       [("total", Value.int t.req), ("cached", Value.int t.cachedReq),
        ("uncached", Value.int (t.req - t.cachedReq))]),
     ("bandwidth", Value.dict
       [("total", Value.int t.bw), ("cached", Value.int t.cachedBw),
        ("uncached", Value.int (t.bw - t.cachedBw))]),
     ("threats", Value.dict [("total", Value.int t.threats)]),
     ("pageviews", Value.dict [("total", Value.int t.pv)])]

/-- The `for g in groups` loop of `_aggregate_analytics`: thread the
running totals through `aggStep`, propagating a raised coercion error. -/
def aggLoop : AnalyticsTotals → List Value → Except PyError AnalyticsTotals
  | acc, [] => .ok acc
  | acc, g :: gs =>
    match aggStep acc g with
    | .ok acc2 => aggLoop acc2 gs
    | .error e => .error e

/-- `CloudflareHandler._aggregate_analytics` (`cf_handler.py` lines
534-557): run the loop from zero counters, then build the summary
dictionary. -/
def _aggregate_analytics (groups : List Value) : Except PyError Value :=
  match aggLoop AnalyticsTotals.zero groups with
  | .ok t => .ok (summaryValue t)
  | .error e => .error e

/-- Well-formedness of a bucket in the words of the specification: a
mapping that carries a mapping under the key `"sum"`. Used to state the
claim that the aggregator sums exactly the well-formed buckets. -/
def bucketWellFormed (g : Value) : Bool :=
  match g with
  | .dict kvs =>
    match dlookup kvs "sum" with
    | some (.dict _) => true
    | _ => false
  | _ => false

/-- Whether every counter a bucket presents is numerically coercible (a
bucket skipped by the loop is vacuously fine). -/
def bucketNumeric (g : Value) : Bool :=
  match g with
  | .dict kvs =>
    match dictGetD kvs "sum" (Value.dict []) with
    | .dict skvs =>
      (pyToInt (dictGetD skvs "requests" (Value.int 0))).isSome &&
      (pyToInt (dictGetD skvs "cachedRequests" (Value.int 0))).isSome &&
      (pyToInt (dictGetD skvs "bytes" (Value.int 0))).isSome &&
      (pyToInt (dictGetD skvs "cachedBytes" (Value.int 0))).isSome &&
      (pyToInt (dictGetD skvs "threats" (Value.int 0))).isSome &&
      (pyToInt (dictGetD skvs "pageViews" (Value.int 0))).isSome
    | _ => true
  | _ => true

/-- The six counters of one bucket (defaults applied), for stating what a
well-formed bucket contributes. -/
def bucketTotals (g : Value) : AnalyticsTotals :=
  match g with
  | .dict kvs =>
    match dictGetD kvs "sum" (Value.dict []) with
    | .dict skvs =>
      ⟨(pyToInt (dictGetD skvs "requests" (Value.int 0))).getD 0,
       (pyToInt (dictGetD skvs "cachedRequests" (Value.int 0))).getD 0,
       (pyToInt (dictGetD skvs "bytes" (Value.int 0))).getD 0,
       (pyToInt (dictGetD skvs "cachedBytes" (Value.int 0))).getD 0,
       (pyToInt (dictGetD skvs "threats" (Value.int 0))).getD 0,
       (pyToInt (dictGetD skvs "pageViews" (Value.int 0))).getD 0⟩
    | _ => AnalyticsTotals.zero
  | _ => AnalyticsTotals.zero

/-- Specification-side aggregate, following the claim's words: the
componentwise sum of the counters of exactly the well-formed buckets. -/
def specAggregatedTotals (groups : List Value) : AnalyticsTotals :=
  ((groups.filter bucketWellFormed).map bucketTotals).foldr
    AnalyticsTotals.add AnalyticsTotals.zero

/-- Two hourly buckets with requests 600 (500 cached) and 400 (300
cached), the worked example of the specification. -/
def demoBuckets : List Value :=
  [Value.dict [("sum", Value.dict
     [("requests", Value.int 600), ("cachedRequests", Value.int 500),
      ("bytes", Value.int 7000), ("cachedBytes", Value.int 5000),
      ("threats", Value.int 2), ("pageViews", Value.int 100)])],
   Value.dict [("sum", Value.dict
     [("requests", Value.int 400), ("cachedRequests", Value.int 300),
      ("bytes", Value.int 3000), ("cachedBytes", Value.int 1000),
      ("threats", Value.int 1), ("pageViews", Value.int 50)])]]

/-! ### Auth resolver (`CloudflareHandler._get_client` /
`_get_auth_headers`, `cf_handler.py` lines 85-105) -/

/-- The connection capability `_get_client` produces: an SDK client
constructed either with `api_token=` or with `api_email=`/`api_key=`. -/
inductive AuthCapability where
  | apiTokenClient : (api_token : String) → AuthCapability
  | apiKeyClient : (api_email : String) → (api_key : String) → AuthCapability
deriving Repr, DecidableEq

/-- The message of the `ValueError` raised when neither credential mode is
configured — the realisation of the specification's `ConfigurationError`. -/
def configErrorMsg : String :=
  "需要设置 CF_API_TOKEN 或 CF_API_KEY + CF_API_EMAIL，请检查 MCP 配置的 env 字段"

/-- `CloudflareHandler._get_client` (`cf_handler.py` lines 85-94) on the
three configuration strings; Python truthiness of a string is
non-emptiness. -/
def _get_client (token key email : String) : Except PyError AuthCapability :=
  if token ≠ "" then .ok (.apiTokenClient token)
  else if key ≠ "" ∧ email ≠ "" then .ok (.apiKeyClient email key)
  else .error (.valueError configErrorMsg)

/-- `CloudflareHandler._get_auth_headers` (`cf_handler.py` lines 96-105). -/
def _get_auth_headers (token key email : String) :
    Except PyError (List (String × String)) :=
  if token ≠ "" then .ok [("Authorization", "Bearer " ++ token)]
  else if key ≠ "" ∧ email ≠ "" then .ok [("X-Auth-Email", email), ("X-Auth-Key", key)]
  else .error (.valueError configErrorMsg)

/-! ### Zone settings projections
(`CloudflareHandler._get_zone_settings_filtered` and the three key sets,
`cf_handler.py` lines 57-83 and 248-271) -/

/-- The `_CACHE_KEYS` allow-list (`cf_handler.py` lines 57-59). -/
def _CACHE_KEYS : List String :=
  ["cache_level", "browser_cache_ttl", "always_online", "development_mode",
   "edge_cache_ttl"]

/-- The `_SPEED_KEYS` allow-list (`cf_handler.py` lines 60-73). -/
def _SPEED_KEYS : List String :=
  ["brotli", "early_hints", "h2_prioritization", "minify", "mirage", "polish",
   "prefetch_preload", "rocket_loader", "http2", "http3"]

/-- The `_SECURITY_KEYS` allow-list (`cf_handler.py` lines 74-83). -/
def _SECURITY_KEYS : List String :=
  ["security_level", "browser_check", "challenge_ttl", "hotlink_protection",
   "privacy_pass", "waf"]

/-- Python `v is None`. -/
def isNullV : Value → Bool
  | .null => true
  | _ => false

/-- One item of the dict comprehension of `_get_zone_settings_filtered`
(`cf_handler.py` lines 265-271): an item contributes `str(item["id"]) :
item["value"]` exactly when it is a dictionary, its id is (a string) in
the allow-list, and its value is present and not `None`; successive
contributions land in a Python dictionary, so a duplicate id overwrites. -/
def settingsStep (keys : List String) (acc : List (String × Value)) (item : Value) :
    List (String × Value) :=
  match item with
  | .dict kvs =>
    match dlookup kvs "id" with
    | some (.str sid) =>
      if sid ∈ keys then
        match dlookup kvs "value" with
        | some v => if isNullV v then acc else dictInsert acc sid v
        | none => acc
      else acc
    | _ => acc
  | _ => acc

/-- The dict comprehension of `_get_zone_settings_filtered` over the raw
settings list. -/
def filterSettings (items : List Value) (keys : List String) : List (String × Value) :=
  items.foldl (settingsStep keys) []

/-- `CloudflareHandler._get_zone_settings_filtered` (`cf_handler.py` lines
248-271) applied to the decoded response body: take `data.get("result",
[])`, return an empty dictionary when it is not a list, else filter. -/
def _get_zone_settings_filtered (data : List (String × Value)) (keys : List String) :
    List (String × Value) :=
  match dictGetD data "result" (Value.list []) with
  | .list items => filterSettings items keys
  | _ => []

/-- The raw settings list of the specification's worked example: a
`cache_level` setting and an `ssl` setting. -/
def exampleSettings : List Value :=
  [Value.dict [("id", Value.str "cache_level"), ("value", Value.str "aggressive")],
   Value.dict [("id", Value.str "ssl"), ("value", Value.str "full")]]

/-! ### Worker metadata lookup (`CloudflareHandler.get_worker`,
`cf_handler.py` lines 641-667) -/

/-- Python `str(v)` for the scalar values that occur in worker script
metadata. Composite values are rendered opaquely; no claim depends on
their textual form. -/
def pyStrOf : Value → String
  | .str s => s
  | .int n => toString n
  | .bool true => "True"
  | .bool false => "False"
  | .null => "None"
  | .list _ => "<list>"
  | .dict _ => "<dict>"

/-- The loop test of `get_worker`: `isinstance(script, dict) and
script.get("id") == script_name` (Python equality between a string and a
non-string value is false). -/
def scriptMatches (s : Value) (script_name : String) : Bool :=
  match s with
  | .dict kvs =>
    match dlookup kvs "id" with
    | some (.str sid) => sid == script_name
    | _ => false
  | _ => false

/-- The metadata dictionary `get_worker` returns for the matched script. -/
def projectWorkerScript (s : Value) : Value :=
  match s with
  | .dict kvs =>
    Value.dict
      [("id", Value.str (pyStrOf (dictGetD kvs "id" (Value.str "")))),
       ("created_on", Value.str (pyStrOf (dictGetD kvs "created_on" (Value.str "")))),
       ("modified_on", Value.str (pyStrOf (dictGetD kvs "modified_on" (Value.str "")))),
       ("etag", Value.str (pyStrOf (dictGetD kvs "etag" (Value.str ""))))]
  | _ => Value.dict []

/-- The request path `get_worker` fetches: the account-level script
listing (it never requests a single script). -/
def get_worker_request (account_id : String) : String :=
  "/accounts/" ++ account_id ++ "/workers/scripts"

/-- `CloudflareHandler.get_worker` (`cf_handler.py` lines 641-667) applied
to the decoded listing response: a non-list `result` returns an empty
dictionary; otherwise the first dictionary entry whose `id` equals the
requested name is projected, and if none matches a `ValueError` naming the
script is raised. -/
def get_worker (data : List (String × Value)) (script_name : String) :
    Except PyError Value :=
  match dictGetD data "result" (Value.list []) with
  | .list scripts =>
    match scripts.find? (fun s => scriptMatches s script_name) with
    | some s => .ok (projectWorkerScript s)
    | none => .error (.valueError ("Worker 脚本 " ++ script_name ++ " 不存在"))
  | _ => .ok (Value.dict [])

/-- Whether an outcome is a `cloudflare.NotFoundError`. -/
def isNotFoundOutcome : Except PyError Value → Bool
  | .error (.notFoundError _) => true
  | _ => false

/-- Whether an outcome is a success. -/
def isOkOutcome : Except PyError Value → Bool
  | .ok _ => true
  | _ => false

/-- A concrete decoded script-listing response that contains no entry with
id "ghost-worker". -/
def ghostListing : List (String × Value) :=
  [("result", Value.list
     [Value.dict [("id", Value.str "my-worker"), ("created_on", Value.str "2024-01-01"),
                  ("modified_on", Value.str "2024-06-01"), ("etag", Value.str "etag-1")]])]

/-! ### Email routing and custom-hostname listing
(`CloudflareHandler.get_email_routing` lines 427-439,
`CloudflareHandler.list_custom_hostnames` lines 391-406) -/

/-- The attributes read off the SDK email-routing object. -/
structure RoutingInfo where
  id : Value
  name : Value
  enabled : Value
  status : Value

/-- `CloudflareHandler.get_email_routing` as a function of the upstream
outcome: the method body has no exception handling of its own, so an
upstream failure propagates unchanged; a success is reshaped into the
four-field dictionary. -/
def get_email_routing (upstream : Except PyError RoutingInfo) : Except PyError Value :=
  match upstream with
  | .error e => .error e
  | .ok r =>
    .ok (Value.dict
      [("id", r.id), ("name", r.name), ("enabled", r.enabled), ("status", r.status)])

/-- The attributes read off one SDK custom-hostname object. -/
structure HostnameInfo where
  id : Value
  hostname : Value
  status : Value

/-- `CloudflareHandler.list_custom_hostnames` as a function of the
upstream outcome: no exception handling in the method body, so an
upstream failure propagates unchanged; a success is reshaped into a list
of three-field dictionaries. -/
def list_custom_hostnames (upstream : Except PyError (List HostnameInfo)) :
    Except PyError Value :=
  match upstream with
  | .error e => .error e
  | .ok hs =>
    .ok (Value.list (hs.map (fun h =>
      Value.dict [("id", h.id), ("hostname", h.hostname), ("status", h.status)])))

/-! ### Tool groups for the authentication-error mapping -/

/-- The 18 tools whose `except` ladder contains a dedicated
`cloudflare.AuthenticationError` branch returning exactly
"CF_API_TOKEN 无效". -/
def fixedAuthMessageTools : List Tool :=
  [.list_dns_records, .create_dns_record, .update_dns_record, .purge_cache,
   .list_firewall_rules, .get_ssl_settings, .list_ssl_certificates,
   .list_custom_hostnames, .create_custom_hostname, .get_email_routing,
   .list_email_routing_rules, .get_dnssec, .get_dns_settings, .list_ai_models,
   .run_ai, .list_workers, .list_worker_routes, .get_worker]

/-- The 8 tools whose `except` ladder has no `AuthenticationError` branch
at all, so an authentication failure falls through to the generic
`except Exception` arm. -/
def fallthroughAuthTools : List Tool :=
  [.delete_dns_record, .get_zone_settings, .get_cache_settings,
   .get_speed_settings, .get_security_settings, .update_custom_hostname,
   .delete_custom_hostname, .get_zone_analytics]

/-! ## Helper lemmas -/

/-- Helper: a string with a non-empty left part is non-empty. -/
theorem append_ne_empty_left (s t : String) (h : s ≠ "") : s ++ t ≠ "" := by
  intro hc
  apply h
  have hd := congrArg String.data hc
  simp [String.data_append] at hd
  cases s
  simp_all

/-- Helper: binding a succeeded `Except` computation just applies the
continuation. -/
theorem exceptOkBind {e a b : Type} (x : a) (f : a -> Except e b) :
    (do let y <- Except.ok x; f y) = f x := rfl

/-- Helper: adding the zero counters on the right changes nothing. -/
theorem AnalyticsTotals.add_zero (a : AnalyticsTotals) :
    a.add AnalyticsTotals.zero = a := by
  cases a
  simp [AnalyticsTotals.add, AnalyticsTotals.zero]

/-- Helper: adding the zero counters on the left changes nothing. -/
theorem AnalyticsTotals.zero_add (a : AnalyticsTotals) :
    AnalyticsTotals.zero.add a = a := by
  cases a
  simp [AnalyticsTotals.add, AnalyticsTotals.zero]

/-- Helper: counter addition is associative. -/
theorem AnalyticsTotals.add_assoc (a b c : AnalyticsTotals) :
    (a.add b).add c = a.add (b.add c) := by
  cases a; cases b; cases c
  simp [AnalyticsTotals.add, Int.add_assoc]

/-- Helper: on a numerically coercible bucket the loop body never raises;
a well-formed bucket contributes its counters, anything else is skipped. -/
theorem aggStep_eq (acc : AnalyticsTotals) (g : Value)
    (hg : bucketNumeric g = true) :
    aggStep acc g = .ok (if bucketWellFormed g then acc.add (bucketTotals g) else acc) := by
  cases g with
  | dict kvs =>
    rcases hs : dlookup kvs "sum" with _ | v
    · cases acc
      simp [aggStep, dictGetD, hs, toIntE, pyToInt, dlookup, bucketWellFormed,
        AnalyticsTotals.add, exceptOkBind]
    · cases v with
      | dict skvs =>
        simp only [bucketNumeric, dictGetD, hs, Option.getD_some, Bool.and_eq_true,
          Option.isSome_iff_exists] at hg
        obtain ⟨⟨⟨⟨⟨⟨r, hr⟩, ⟨cr, hcr⟩⟩, ⟨b, hb⟩⟩, ⟨cb, hcb⟩⟩, ⟨th, hth⟩⟩, ⟨p, hp⟩⟩ := hg
        simp [aggStep, dictGetD, hs, toIntE, hr, hcr, hb, hcb, hth, hp,
          bucketWellFormed, bucketTotals, AnalyticsTotals.add, exceptOkBind]
      | null => simp [aggStep, dictGetD, hs, bucketWellFormed]
      | bool x => simp [aggStep, dictGetD, hs, bucketWellFormed]
      | int n => simp [aggStep, dictGetD, hs, bucketWellFormed]
      | str s => simp [aggStep, dictGetD, hs, bucketWellFormed]
      | list xs => simp [aggStep, dictGetD, hs, bucketWellFormed]
  | null => simp [aggStep, bucketWellFormed]
  | bool x => simp [aggStep, bucketWellFormed]
  | int n => simp [aggStep, bucketWellFormed]
  | str s => simp [aggStep, bucketWellFormed]
  | list xs => simp [aggStep, bucketWellFormed]

/-- Helper: the loop computes the specification-side sum, shifted by the
accumulator. -/
theorem aggLoop_eq (groups : List Value) (acc : AnalyticsTotals)
    (h : groups.all bucketNumeric = true) :
    aggLoop acc groups = .ok (acc.add (specAggregatedTotals groups)) := by
  induction groups generalizing acc with
  | nil => simp [aggLoop, specAggregatedTotals, AnalyticsTotals.add_zero]
  | cons g gs ih =>
    simp only [List.all_cons, Bool.and_eq_true] at h
    have hstep := aggStep_eq acc g h.1
    by_cases hw : bucketWellFormed g = true
    · rw [if_pos hw] at hstep
      calc aggLoop acc (g :: gs)
          = aggLoop (acc.add (bucketTotals g)) gs := by rw [aggLoop, hstep]
        _ = .ok ((acc.add (bucketTotals g)).add (specAggregatedTotals gs)) := ih _ h.2
        _ = .ok (acc.add (specAggregatedTotals (g :: gs))) := by
            rw [AnalyticsTotals.add_assoc]
            simp [specAggregatedTotals, List.filter_cons, hw]
    · rw [if_neg hw] at hstep
      calc aggLoop acc (g :: gs) = aggLoop acc gs := by rw [aggLoop, hstep]
        _ = .ok (acc.add (specAggregatedTotals gs)) := ih _ h.2
        _ = .ok (acc.add (specAggregatedTotals (g :: gs))) := by
            simp [specAggregatedTotals, List.filter_cons, hw]

/-- Helper: a present key is found by lookup. -/
theorem dlookup_isSome_of_any (d : List (String × Value)) (k : String)
    (h : d.any (fun kv => kv.1 = k) = true) : (dlookup d k).isSome := by
  induction d with
  | nil => simp at h
  | cons hd tl ih =>
    by_cases h1 : hd.1 = k
    · simp [dlookup, h1]
    · simp only [List.any_cons, Bool.or_eq_true] at h
      rcases h with h | h
      · simp at h
        exact absurd h h1
      · simp [dlookup, h1, ih h]

/-- Helper: lookup misses when no entry carries the key. -/
theorem dlookup_eq_none_of_any_eq_false (d : List (String × Value)) (k : String)
    (h : d.any (fun kv => kv.1 = k) = false) : dlookup d k = none := by
  induction d with
  | nil => rfl
  | cons hd tl ih =>
    simp only [List.any_cons, Bool.or_eq_false_iff] at h
    have h1 : ¬ hd.1 = k := by simpa using h.1
    simp [dlookup, h1, ih h.2]

/-- Helper: lookup across an append falls through to the right part on a
miss. -/
theorem dlookup_append (d1 d2 : List (String × Value)) (q : String) :
    dlookup (d1 ++ d2) q =
      match dlookup d1 q with
      | some v => some v
      | none => dlookup d2 q := by
  induction d1 with
  | nil => simp [dlookup]
  | cons hd tl ih =>
    by_cases h1 : hd.1 = q <;> simp [dlookup, h1, ih]

/-- Helper: lookup after the in-place value replacement of a Python dict
assignment. -/
theorem dlookup_mapUpd (d : List (String × Value)) (k : String) (v : Value)
    (q : String) :
    dlookup (d.map (fun kv => if kv.1 = k then (k, v) else kv)) q =
      if q = k then (dlookup d k).map (fun _ => v) else dlookup d q := by
  induction d with
  | nil => simp [dlookup]
  | cons hd tl ih =>
    simp only [List.map_cons]
    by_cases h1 : hd.1 = k
    · rw [if_pos h1]
      by_cases h2 : q = k
      · subst h2
        simp [dlookup, h1]
      · have hkq : ¬ k = q := fun hh => h2 hh.symm
        have hhdq : ¬ hd.1 = q := by rw [h1]; exact hkq
        simp [dlookup, hkq, hhdq, h2, ih]
    · rw [if_neg h1]
      by_cases h2 : q = k
      · subst h2
        simp [dlookup, h1, ih]
      · by_cases h3 : hd.1 = q
        · simp [dlookup, h3, h2]
        · simp [dlookup, h3, h2, ih]

/-- Helper: lookup after Python dict assignment: the assigned key yields
the new value, every other key is untouched. -/
theorem dlookup_dictInsert (d : List (String × Value)) (k : String) (v : Value)
    (q : String) :
    dlookup (dictInsert d k v) q = if q = k then some v else dlookup d q := by
  unfold dictInsert
  by_cases hany : (d.any (fun kv => kv.1 = k)) = true
  · rw [if_pos hany, dlookup_mapUpd]
    by_cases h2 : q = k
    · obtain ⟨w, hw⟩ := Option.isSome_iff_exists.mp (dlookup_isSome_of_any d k hany)
      simp [h2, hw]
    · simp [h2]
  · rw [if_neg hany, dlookup_append]
    have hf : d.any (fun kv => kv.1 = k) = false := by
      cases hb : d.any (fun kv => kv.1 = k)
      · rfl
      · exact absurd hb hany
    have hnone := dlookup_eq_none_of_any_eq_false d k hf
    by_cases h2 : q = k
    · subst h2
      simp [hnone, dlookup]
    · cases hq : dlookup d q with
      | some w => simp [hq, h2]
      | none => simp [hq, h2, dlookup, Ne.symm h2]

/-- Helper: the null test agrees with disequality from the null value. -/
theorem isNullV_false_iff (v : Value) : isNullV v = false ↔ v ≠ Value.null := by
  cases v <;> simp [isNullV]

/-- Helper: what one comprehension step can add to the accumulator. -/
theorem settingsStep_sound (keys : List String) (acc : List (String × Value))
    (item : Value) (k : String) (v : Value)
    (h : dlookup (settingsStep keys acc item) k = some v) :
    dlookup acc k = some v ∨
      (k ∈ keys ∧ isNullV v = false ∧ ∃ kvs, item = Value.dict kvs ∧
        dlookup kvs "id" = some (Value.str k) ∧ dlookup kvs "value" = some v) := by
  cases item with
  | dict kvs =>
    rcases hid : dlookup kvs "id" with _ | idv
    · left
      simpa [settingsStep, hid] using h
    · cases idv with
      | str sid =>
        by_cases hk : sid ∈ keys
        · rcases hv : dlookup kvs "value" with _ | v0
          · left
            simpa [settingsStep, hid, hk, hv] using h
          · by_cases hnull : isNullV v0 = true
            · left
              simpa [settingsStep, hid, hk, hv, hnull] using h
            · have hn : isNullV v0 = false := by simpa using hnull
              rw [show settingsStep keys acc (Value.dict kvs) = dictInsert acc sid v0 by
                simp [settingsStep, hid, hk, hv, hn]] at h
              rw [dlookup_dictInsert] at h
              by_cases hqk : k = sid
              · rw [if_pos hqk] at h
                cases h
                right
                exact ⟨hqk ▸ hk, hn, kvs, rfl, hqk ▸ hid, hv⟩
              · rw [if_neg hqk] at h
                exact Or.inl h
        · left
          simpa [settingsStep, hid, hk] using h
      | null => left; simpa [settingsStep, hid] using h
      | bool x => left; simpa [settingsStep, hid] using h
      | int n => left; simpa [settingsStep, hid] using h
      | list xs => left; simpa [settingsStep, hid] using h
      | dict kvs2 => left; simpa [settingsStep, hid] using h
  | null => left; simpa [settingsStep] using h
  | bool x => left; simpa [settingsStep] using h
  | int n => left; simpa [settingsStep] using h
  | str s => left; simpa [settingsStep] using h
  | list xs => left; simpa [settingsStep] using h

/-- Helper: a comprehension step never removes a key. -/
theorem settingsStep_isSome_preserved (keys : List String)
    (acc : List (String × Value)) (item : Value) (k : String)
    (h : (dlookup acc k).isSome) :
    (dlookup (settingsStep keys acc item) k).isSome := by
  cases item with
  | dict kvs =>
    rcases hid : dlookup kvs "id" with _ | idv
    · simpa [settingsStep, hid] using h
    · cases idv with
      | str sid =>
        by_cases hk : sid ∈ keys
        · rcases hv : dlookup kvs "value" with _ | v0
          · simpa [settingsStep, hid, hk, hv] using h
          · by_cases hnull : isNullV v0 = true
            · simpa [settingsStep, hid, hk, hv, hnull] using h
            · have hn : isNullV v0 = false := by simpa using hnull
              rw [show settingsStep keys acc (Value.dict kvs) = dictInsert acc sid v0 by
                simp [settingsStep, hid, hk, hv, hn]]
              rw [dlookup_dictInsert]
              by_cases hqk : k = sid
              · simp [hqk]
              · simpa [hqk] using h
        · simpa [settingsStep, hid, hk] using h
      | null => simpa [settingsStep, hid] using h
      | bool x => simpa [settingsStep, hid] using h
      | int n => simpa [settingsStep, hid] using h
      | list xs => simpa [settingsStep, hid] using h
      | dict kvs2 => simpa [settingsStep, hid] using h
  | null => simpa [settingsStep] using h
  | bool x => simpa [settingsStep] using h
  | int n => simpa [settingsStep] using h
  | str s => simpa [settingsStep] using h
  | list xs => simpa [settingsStep] using h

/-- Helper: folding more items never removes a key. -/
theorem filterSettings_mono (keys : List String) (items : List Value)
    (acc : List (String × Value)) (k : String) (h : (dlookup acc k).isSome) :
    (dlookup (items.foldl (settingsStep keys) acc) k).isSome := by
  induction items generalizing acc with
  | nil => exact h
  | cons item tl ih =>
    rw [List.foldl_cons]
    exact ih _ (settingsStep_isSome_preserved keys acc item k h)

/-- Helper: a qualifying item makes its key present after its step. -/
theorem settingsStep_inserts (keys : List String) (acc : List (String × Value))
    (kvs : List (String × Value)) (k : String) (v : Value)
    (hid : dlookup kvs "id" = some (Value.str k)) (hk : k ∈ keys)
    (hv : dlookup kvs "value" = some v) (hnn : isNullV v = false) :
    (dlookup (settingsStep keys acc (Value.dict kvs)) k).isSome := by
  rw [show settingsStep keys acc (Value.dict kvs) = dictInsert acc k v by
    simp [settingsStep, hid, hk, hv, hnn]]
  simp [dlookup_dictInsert]

/-- Helper: soundness of the comprehension fold from any accumulator. -/
theorem foldl_settings_sound (keys : List String) :
    ∀ (items : List Value) (acc : List (String × Value)) (k : String) (v : Value),
      dlookup (items.foldl (settingsStep keys) acc) k = some v →
      dlookup acc k = some v ∨
        (k ∈ keys ∧ isNullV v = false ∧ ∃ kvs, Value.dict kvs ∈ items ∧
          dlookup kvs "id" = some (Value.str k) ∧ dlookup kvs "value" = some v) := by
  intro items
  induction items with
  | nil => exact fun acc k v h => Or.inl h
  | cons item tl ih =>
    intro acc k v h
    rw [List.foldl_cons] at h
    rcases ih _ _ _ h with h1 | h2
    · rcases settingsStep_sound keys acc item k v h1 with ha | hb
      · exact Or.inl ha
      · obtain ⟨hk, hnn, kvs, rfl, hid, hv⟩ := hb
        exact Or.inr ⟨hk, hnn, kvs, List.mem_cons_self _ _, hid, hv⟩
    · obtain ⟨hk, hnn, kvs, hmem, hid, hv⟩ := h2
      exact Or.inr ⟨hk, hnn, kvs, List.mem_cons_of_mem _ hmem, hid, hv⟩

/-! ## Claim theorems -/

/-- Claim C1 (amended): every tool invocation produces exactly one of the
two envelope shapes — on success status `"success"` with an empty message,
on failure status `"error"` with null data; and on failure the message is
the mapped text, which is non-empty whenever the string form of the
mapped exception is non-empty (the catch-all arm copies the exception
text verbatim, so an exception whose string form is empty yields an empty
message). -/
theorem envelope_shape_amended :
    (∀ (t : Tool) (ids : ToolIds) (outcome : Except PyError Value),
      ((runTool t ids outcome).status = "success" ∧ (runTool t ids outcome).message = "") ∨
      ((runTool t ids outcome).status = "error" ∧ (runTool t ids outcome).data = Value.null)) ∧
    (∀ (t : Tool) (ids : ToolIds) (e : PyError),
      e.msgOf = "" ∨ (invoke t ids (Except.error e)).message ≠ "") := by
  constructor
  · intro t ids outcome
    rcases outcome with e | d
    · cases e <;> cases t <;> exact Or.inr ⟨rfl, rfl⟩
    · cases t <;> first | exact Or.inl ⟨rfl, rfl⟩ | exact Or.inr ⟨rfl, rfl⟩
  · intro t ids e
    rcases eq_or_ne e.msgOf "" with hm | hm
    · exact Or.inl hm
    · refine Or.inr ?_
      cases e <;> simp only [PyError.msgOf] at hm <;> cases t <;>
        simp only [invoke, mkError, PyError.msgOf] <;>
          first
            | decide
            | exact hm
            | exact append_ne_empty_left _ _ (by decide)
            | exact append_ne_empty_left _ _ (append_ne_empty_left _ _ (by decide))

/-- Claim C1, counterexample to the claim as stated: an unclassified
exception whose string form is empty reaches the catch-all arm and
produces an error envelope whose message is the empty string, so the
failure message is not always non-empty. -/
theorem envelope_empty_message_counterexample :
    (runTool Tool.get_zone_analytics
       { zone_id := "zone-1", record_id := "", custom_hostname_id := "", script_name := "" }
       (Except.error (PyError.other ""))).status = "error" ∧
    (runTool Tool.get_zone_analytics
       { zone_id := "zone-1", record_id := "", custom_hostname_id := "", script_name := "" }
       (Except.error (PyError.other ""))).message = "" :=
  ⟨rfl, rfl⟩

/-- Claim C2: the create/update/delete custom-hostname tools always return
an error envelope, for every upstream outcome — the concrete
`CloudflareHandler` defines `create_custom_hostname` with two positional
parameters while the tool passes three (`TypeError`), and defines no
`update_custom_hostname` or `delete_custom_hostname` method at all
(`AttributeError`); the raised exception is converted by the catch-all
arm, so a success envelope is unreachable. -/
theorem custom_hostname_tools_always_error :
    (∀ (ids : ToolIds) (upstream : Except PyError Value),
      (runTool Tool.create_custom_hostname ids upstream).status = "error" ∧
      (runTool Tool.create_custom_hostname ids upstream).data = Value.null ∧
      (runTool Tool.update_custom_hostname ids upstream).status = "error" ∧
      (runTool Tool.update_custom_hostname ids upstream).data = Value.null ∧
      (runTool Tool.delete_custom_hostname ids upstream).status = "error" ∧
      (runTool Tool.delete_custom_hostname ids upstream).data = Value.null) ∧
    checkCall "create_custom_hostname" 3 =
      some (PyError.typeError
        "CloudflareHandler.create_custom_hostname takes 3 positional arguments but 4 were given") ∧
    checkCall "update_custom_hostname" 3 =
      some (PyError.attributeError
        "CloudflareHandler object has no attribute update_custom_hostname") ∧
    checkCall "delete_custom_hostname" 2 =
      some (PyError.attributeError
        "CloudflareHandler object has no attribute delete_custom_hostname") :=
  ⟨fun _ _ => ⟨rfl, rfl, rfl, rfl, rfl, rfl⟩, rfl, rfl, rfl⟩

/-- Claim C3: the DNS update flow issues exactly one read of the existing
record followed by exactly one edit whose name and type come from the
existing record, whose content and ttl are the caller-supplied values,
and whose proxied flag is the caller-supplied value when it is not None
and the existing record's value when the caller passes None. -/
theorem update_dns_record_preserves_and_overrides
    (zone_id record_id content : String) (ttl : Int) (proxied : Option Bool)
    (existing : DnsRecord) :
    ∃ e : EditCall,
      update_dns_record zone_id record_id content ttl proxied existing =
        [DnsUpstreamCall.get record_id zone_id, DnsUpstreamCall.edit e] ∧
      e.name = existing.name ∧ e.type = existing.type ∧
      e.content = content ∧ e.ttl = ttl ∧
      (∀ b, proxied = some b → e.proxied = some b) ∧
      (proxied = none → e.proxied = existing.proxied) := by
  refine ⟨_, rfl, rfl, rfl, rfl, rfl, ?_, ?_⟩
  · intro b hb
    cases proxied with
    | none => cases hb
    | some p => cases hb; rfl
  · intro hn
    cases proxied with
    | none => rfl
    | some p => cases hn

/-- Claim C3, witness: the specification's worked example — updating a
record whose prior state is `www.example.com` / `A` / proxied, with
content `9.9.9.9`, ttl 1, and no proxied override, carries forward the
name, type and prior proxied value. -/
theorem update_dns_record_witness :
    ∃ e : EditCall,
      update_dns_record "zone-1" "rec-1" "9.9.9.9" 1 none
        { id := "rec-1", type := "A", name := "www.example.com", content := "1.2.3.4",
          ttl := 300, proxied := some true } =
        [DnsUpstreamCall.get "rec-1" "zone-1", DnsUpstreamCall.edit e] ∧
      e.name = "www.example.com" ∧ e.type = "A" ∧ e.content = "9.9.9.9" ∧
      e.proxied = some true := by
  obtain ⟨e, he, hn, ht, hc, _, _, hkeep⟩ :=
    update_dns_record_preserves_and_overrides "zone-1" "rec-1" "9.9.9.9" 1 none
      { id := "rec-1", type := "A", name := "www.example.com", content := "1.2.3.4",
        ttl := 300, proxied := some true }
  exact ⟨e, he, hn, ht, hc, hkeep rfl⟩

/-- Claim C4 (amended): 18 tools map an upstream `AuthenticationError` to
the fixed message "CF_API_TOKEN 无效"; `list_zones` maps it to the longer
"CF_API_TOKEN 无效，请检查 Token 是否正确"; and the remaining 8 tools have no
`AuthenticationError` branch at all, so the error falls through to the
catch-all arm and the envelope carries the exception's own string form. -/
theorem auth_error_message_amended :
    (∀ t ∈ fixedAuthMessageTools, ∀ (ids : ToolIds) (m : String),
      invoke t ids (Except.error (PyError.authenticationError m)) =
        mkError "CF_API_TOKEN 无效") ∧
    (∀ (ids : ToolIds) (m : String),
      invoke Tool.list_zones ids (Except.error (PyError.authenticationError m)) =
        mkError "CF_API_TOKEN 无效，请检查 Token 是否正确") ∧
    (∀ t ∈ fallthroughAuthTools, ∀ (ids : ToolIds) (m : String),
      invoke t ids (Except.error (PyError.authenticationError m)) = mkError m) := by
  refine ⟨?_, fun ids m => rfl, ?_⟩
  · intro t ht ids m
    fin_cases ht <;> rfl
  · intro t ht ids m
    fin_cases ht <;> rfl

/-- Claim C4, witness: the `get_worker` tool maps an authentication error
to the fixed credential message. -/
theorem auth_error_message_witness :
    invoke Tool.get_worker
      { zone_id := "z", record_id := "r", custom_hostname_id := "c", script_name := "w" }
      (Except.error (PyError.authenticationError "x")) = mkError "CF_API_TOKEN 无效" :=
  auth_error_message_amended.1 Tool.get_worker (by decide)
    { zone_id := "z", record_id := "r", custom_hostname_id := "c", script_name := "w" } "x"

/-- Claim C4, counterexample to the claim as stated: `get_zone_settings`
has no `AuthenticationError` branch, so an authentication failure surfaces
with the exception's own text rather than the fixed credential message;
moreover `list_zones` and `list_dns_records` produce different credential
messages for the same authentication error. -/
theorem auth_error_message_counterexample :
    invoke Tool.get_zone_settings
      { zone_id := "zone-1", record_id := "", custom_hostname_id := "", script_name := "" }
      (Except.error (PyError.authenticationError "Unauthorized")) = mkError "Unauthorized" ∧
    mkError "Unauthorized" ≠ mkError "CF_API_TOKEN 无效" ∧
    invoke Tool.list_zones
      { zone_id := "", record_id := "", custom_hostname_id := "", script_name := "" }
      (Except.error (PyError.authenticationError "Unauthorized")) ≠
    invoke Tool.list_dns_records
      { zone_id := "", record_id := "", custom_hostname_id := "", script_name := "" }
      (Except.error (PyError.authenticationError "Unauthorized")) :=
  ⟨rfl,
   fun h => absurd (congrArg Envelope.message h) (by decide),
   fun h => absurd (congrArg Envelope.message h) (by decide)⟩

/-- Claim C5 (amended): when the upstream script listing contains no entry
whose id equals the requested name, `get_worker` raises a `ValueError`
(not a `cloudflare.NotFoundError`) whose message names the requested
script id exactly; the lookup is a list-and-filter by exact id match. -/
theorem get_worker_not_found_amended
    (data : List (String × Value)) (script_name : String) (scripts : List Value)
    (hres : dictGetD data "result" (Value.list []) = Value.list scripts)
    (hnone : scripts.all (fun s => !scriptMatches s script_name) = true) :
    get_worker data script_name =
      .error (.valueError ("Worker 脚本 " ++ script_name ++ " 不存在")) ∧
    isNotFoundOutcome (get_worker data script_name) = false := by
  have hfind : scripts.find? (fun s => scriptMatches s script_name) = none := by
    rw [List.find?_eq_none]
    intro x hx
    have hax := (List.all_eq_true.mp hnone) x hx
    simp at hax
    simp [hax]
  constructor
  · simp [get_worker, hres, hfind]
  · simp [get_worker, hres, hfind, isNotFoundOutcome]

/-- Claim C5, witness: a listing that only contains `my-worker` makes the
lookup of `ghost-worker` fail with the ValueError naming `ghost-worker`. -/
theorem get_worker_not_found_witness :
    get_worker ghostListing "ghost-worker" =
      .error (.valueError ("Worker 脚本 " ++ "ghost-worker" ++ " 不存在")) :=
  (get_worker_not_found_amended ghostListing "ghost-worker"
    [Value.dict [("id", Value.str "my-worker"), ("created_on", Value.str "2024-01-01"),
                 ("modified_on", Value.str "2024-06-01"), ("etag", Value.str "etag-1")]]
    rfl (by decide)).1

/-- Claim C5, counterexample to the claim as stated: the no-match failure
is a `ValueError`, not a `cloudflare.NotFoundError` (the exception class
the tool's dedicated `except` branch would catch); the message text still
names the requested id. -/
theorem get_worker_not_found_counterexample :
    get_worker ghostListing "ghost-worker" =
      Except.error (PyError.valueError "Worker 脚本 ghost-worker 不存在") ∧
    isNotFoundOutcome (get_worker ghostListing "ghost-worker") = false :=
  ⟨rfl, rfl⟩

/-- Claim C6: cache purge precedence — `purge_everything` wins regardless
of files/tags and issues exactly one purge-everything call; otherwise a
non-empty `files` issues exactly one purge-by-URL call with the
comma-split, stripped, non-empty URL list; otherwise a non-empty `tags`
issues exactly one purge-by-tag call likewise; and when none is supplied
a `ValueError` is raised with no upstream call attempted. -/
theorem purge_cache_precedence (zone_id files tags : String) :
    purge_cache zone_id files tags true =
      .ok ([PurgeCall.everything zone_id],
        Value.dict [("purged", Value.bool true), ("zone_id", Value.str zone_id)]) ∧
    (files ≠ "" → purge_cache zone_id files tags false =
      .ok ([PurgeCall.byFiles zone_id (commaSplitStrip files)],
        Value.dict [("purged", Value.bool true), ("zone_id", Value.str zone_id)])) ∧
    (files = "" → tags ≠ "" → purge_cache zone_id files tags false =
      .ok ([PurgeCall.byTags zone_id (commaSplitStrip tags)],
        Value.dict [("purged", Value.bool true), ("zone_id", Value.str zone_id)])) ∧
    (files = "" → tags = "" → purge_cache zone_id files tags false =
      .error (.valueError "必须指定 purge_everything=True、files 或 tags 之一")) := by
  refine ⟨rfl, ?_, ?_, ?_⟩
  · intro hf
    simp [purge_cache, hf]
  · intro hf ht
    simp [purge_cache, hf, ht]
  · intro hf ht
    simp [purge_cache, hf, ht]

/-- Claim C6, witness: with the purge-everything flag set alongside
non-empty files and tags, only the purge-everything call is issued; and
the comma splitter strips whitespace and drops empty entries. -/
theorem purge_cache_witness :
    purge_cache "zone-1" "https://a.com/x, ,https://b.com/y" "tag-1" true =
      .ok ([PurgeCall.everything "zone-1"],
        Value.dict [("purged", Value.bool true), ("zone_id", Value.str "zone-1")]) ∧
    commaSplitStrip "https://a.com/x, ,https://b.com/y" =
      ["https://a.com/x", "https://b.com/y"] :=
  ⟨(purge_cache_precedence "zone-1" "https://a.com/x, ,https://b.com/y" "tag-1").1,
   by decide⟩

/-- Claim C7: on every bucket list whose entries carry numerically
coercible counters, the aggregator returns the four-group summary whose
six counters are the sums over exactly the well-formed buckets (mappings
carrying a mapping under "sum"), with uncached = total - cached for
requests and bandwidth; malformed entries are skipped silently and the
empty list yields the all-zero structure. -/
theorem aggregate_analytics_sums_well_formed (groups : List Value)
    (h : groups.all bucketNumeric = true) :
    _aggregate_analytics groups = .ok (summaryValue (specAggregatedTotals groups)) := by
  rw [_aggregate_analytics, aggLoop_eq groups AnalyticsTotals.zero h,
    AnalyticsTotals.zero_add]

/-- Claim C7, witness: the empty list yields the all-zero structure, and
the specification's two-bucket example (600/500 and 400/300 cached
requests) aggregates to 1000 total, 800 cached, 200 uncached requests. -/
theorem aggregate_analytics_witness :
    _aggregate_analytics [] = .ok (summaryValue (specAggregatedTotals [])) ∧
    summaryValue (specAggregatedTotals []) = Value.dict
      [("requests", Value.dict
         [("total", Value.int 0), ("cached", Value.int 0), ("uncached", Value.int 0)]),
       ("bandwidth", Value.dict
         [("total", Value.int 0), ("cached", Value.int 0), ("uncached", Value.int 0)]),
       ("threats", Value.dict [("total", Value.int 0)]),
       ("pageviews", Value.dict [("total", Value.int 0)])] ∧
    _aggregate_analytics demoBuckets =
      .ok (summaryValue (specAggregatedTotals demoBuckets)) ∧
    summaryValue (specAggregatedTotals demoBuckets) = Value.dict
      [("requests", Value.dict
         [("total", Value.int 1000), ("cached", Value.int 800),
          ("uncached", Value.int 200)]),
       ("bandwidth", Value.dict
         [("total", Value.int 10000), ("cached", Value.int 6000),
          ("uncached", Value.int 4000)]),
       ("threats", Value.dict [("total", Value.int 3)]),
       ("pageviews", Value.dict [("total", Value.int 150)])] :=
  ⟨aggregate_analytics_sums_well_formed [] rfl, rfl,
   aggregate_analytics_sums_well_formed demoBuckets rfl, rfl⟩

/-- Claim C8: the auth resolver produces the bearer-token capability
whenever the token is non-empty (even when key and email are also set),
the key+email capability when the token is empty and both key and email
are non-empty, and otherwise fails with the configuration error (the
ValueError carrying the configuration message); exactly one mode is ever
produced. -/
theorem auth_resolver_modes (token key email : String) :
    (token ≠ "" →
      _get_client token key email = .ok (.apiTokenClient token) ∧
      _get_auth_headers token key email = .ok [("Authorization", "Bearer " ++ token)]) ∧
    (token = "" → key ≠ "" → email ≠ "" →
      _get_client token key email = .ok (.apiKeyClient email key) ∧
      _get_auth_headers token key email =
        .ok [("X-Auth-Email", email), ("X-Auth-Key", key)]) ∧
    (token = "" → (key = "" ∨ email = "") →
      _get_client token key email = .error (.valueError configErrorMsg) ∧
      _get_auth_headers token key email = .error (.valueError configErrorMsg)) := by
  refine ⟨?_, ?_, ?_⟩
  · intro htok
    constructor <;> simp [_get_client, _get_auth_headers, htok]
  · intro htok hk he
    constructor <;> simp [_get_client, _get_auth_headers, htok, hk, he]
  · intro htok hke
    rcases hke with hk | he
    · constructor <;> simp [_get_client, _get_auth_headers, htok, hk]
    · constructor <;> simp [_get_client, _get_auth_headers, htok, he]

/-- Claim C8, witness: with token, key and email all set, the token wins
and the bearer mode is produced. -/
theorem auth_resolver_witness :
    _get_client "tok-1" "key-1" "mail@example.com" =
      .ok (.apiTokenClient "tok-1") ∧
    _get_auth_headers "tok-1" "key-1" "mail@example.com" =
      .ok [("Authorization", "Bearer " ++ "tok-1")] :=
  (auth_resolver_modes "tok-1" "key-1" "mail@example.com").1 (by decide)

/-- Claim C9: the settings projection contains exactly the entries whose
id is a string in the allow-list and whose value is present and not null
— every entry of the output comes from such an item (soundness), and
every such item puts its id in the output (completeness); the wrapper
over a well-shaped response body is the same filter. -/
theorem zone_settings_projection_exact (items : List Value) (keys : List String) :
    (∀ k v, dlookup (filterSettings items keys) k = some v →
      k ∈ keys ∧ v ≠ Value.null ∧ ∃ kvs, Value.dict kvs ∈ items ∧
        dlookup kvs "id" = some (Value.str k) ∧ dlookup kvs "value" = some v) ∧
    (∀ kvs k v, Value.dict kvs ∈ items → dlookup kvs "id" = some (Value.str k) →
      k ∈ keys → dlookup kvs "value" = some v → v ≠ Value.null →
      (dlookup (filterSettings items keys) k).isSome) ∧
    _get_zone_settings_filtered [("result", Value.list items)] keys =
      filterSettings items keys := by
  refine ⟨?_, ?_, rfl⟩
  · intro k v h
    rcases foldl_settings_sound keys items [] k v h with h1 | h2
    · cases h1
    · obtain ⟨hk, hnn, kvs, hmem, hid, hv⟩ := h2
      exact ⟨hk, (isNullV_false_iff v).mp hnn, kvs, hmem, hid, hv⟩
  · intro kvs k v hmem hid hk hv hnn
    obtain ⟨l1, l2, rfl⟩ := List.append_of_mem hmem
    rw [filterSettings, List.foldl_append, List.foldl_cons]
    exact filterSettings_mono keys l2 _ k
      (settingsStep_inserts keys _ kvs k v hid hk hv ((isNullV_false_iff v).mpr hnn))

/-- Claim C9, witness: the specification's worked example — a raw list
with `cache_level` aggressive and `ssl` full projects under the cache
allow-list to the single `cache_level` entry, with `ssl` absent. -/
theorem zone_settings_projection_witness :
    (dlookup (filterSettings exampleSettings _CACHE_KEYS) "cache_level").isSome ∧
    filterSettings exampleSettings _CACHE_KEYS =
      [("cache_level", Value.str "aggressive")] ∧
    dlookup (filterSettings exampleSettings _CACHE_KEYS) "ssl" = none :=
  ⟨(zone_settings_projection_exact exampleSettings _CACHE_KEYS).2.1
     [("id", Value.str "cache_level"), ("value", Value.str "aggressive")]
     "cache_level" (Value.str "aggressive")
     (by simp [exampleSettings]) rfl (by decide) rfl (by simp),
   rfl, rfl⟩

/-- Claim C10 (amended): the handler implements no soft empty-result path
for unprovisioned features — `get_email_routing` and
`list_custom_hostnames` propagate every upstream failure unchanged
(there is no pattern-matching on the error detail), and at the tool
boundary every such failure becomes an error envelope. -/
theorem soft_absence_not_implemented :
    (∀ e : PyError, get_email_routing (.error e) = .error e) ∧
    (∀ e : PyError, list_custom_hostnames (.error e) = .error e) ∧
    (∀ (ids : ToolIds) (e : PyError),
      (invoke Tool.get_email_routing ids (Except.error e)).status = "error" ∧
      (invoke Tool.list_custom_hostnames ids (Except.error e)).status = "error") := by
  refine ⟨fun e => rfl, fun e => rfl, ?_⟩
  intro ids e
  cases e <;> exact ⟨rfl, rfl⟩

/-- Claim C10, counterexample to the claim as stated: an upstream failure
whose detail plainly indicates the unprovisioned-feature case (error code
1550 / SaaS) still propagates as an error from both operations — no
empty/absent success result is produced. -/
theorem soft_absence_counterexample :
    get_email_routing (.error (.other
      "Cloudflare API error 1550: zone is not on a SaaS plan")) =
      .error (.other "Cloudflare API error 1550: zone is not on a SaaS plan") ∧
    isOkOutcome (get_email_routing (.error (.other
      "Cloudflare API error 1550: zone is not on a SaaS plan"))) = false ∧
    isOkOutcome (list_custom_hostnames (.error (.other
      "Cloudflare API error 1550: zone is not on a SaaS plan"))) = false :=
  ⟨rfl, rfl, rfl⟩

end Claudeflare
